import Mathlib

/-!
# Verification of the hecto navigation-and-rendering core

A shallow embedding of the repository's Rust sources (`src/document.rs`,
`src/editor.rs`) into Lean 4, together with theorems settling the spec's
claims about cursor motion, viewport scrolling, document loading and the
quit transition.

Machine integers (`usize`, `u16`) are modelled as `Nat`; the source's
`saturating_sub` is `Nat` subtraction (which saturates at zero) and
`saturating_add` is ordinary `Nat` addition (no overflow on `Nat`).
Fallible operations (`Result<_, io::Error>`) are modelled with `Option`,
and the file system is an explicit read function `String → Option String`.
-/

namespace Hecto

/-- Modelled from the spec: the `Row` (Line) component lives in a source
file (`row.rs`) that is not part of the snapshot; the spec describes it as
an immutable piece of text with a queryable `length` equal to the count of
addressable columns (raw character count, no grapheme clustering). -/
structure Row where
  content : String
deriving DecidableEq, Repr

/-- Modelled from the spec: `Row::from(line)` wraps the line text. -/
def Row.fromLine (line : String) : Row := ⟨line⟩

/-- Modelled from the spec: `Row::len()` is the character count of the
content. -/
def Row.len (r : Row) : Nat := r.content.length

/-- `Document` from `src/document.rs`: an ordered list of rows and an
optional file name. -/
structure Document where
  rows : List Row
  file_name : Option String
deriving DecidableEq, Repr

/-- `#[derive(Default)]` for `Document`: empty row list, no file name. -/
def Document.default : Document := ⟨[], none⟩

/-- Strip one trailing carriage return, as Rust's `lines()` does to a
segment that was terminated by a line feed. -/
def stripCR (l : List Char) : List Char :=
  if l.getLast? = some '\r' then l.dropLast else l

/-- Worker for `rustLines`: accumulates the current line (reversed) and
emits it at each line feed, stripping a carriage return that immediately
preceded the line feed.  A final segment is emitted only if nonempty,
matching Rust's optional final line terminator. -/
def rustLinesGo (acc : List Char) : List Char → List (List Char)
  | [] => if acc.isEmpty then [] else [acc.reverse]
  | c :: rest =>
      if c = '\n' then stripCR acc.reverse :: rustLinesGo [] rest
      else rustLinesGo (c :: acc) rest

/-- Rust's `str::lines()`: split at `\n` or `\r\n`, terminators excluded,
with no trailing empty line when the text ends in a line terminator. -/
def rustLines (s : String) : List String :=
  (rustLinesGo [] s.data).map (fun l => String.mk l)

/-- `Document::open` from `src/document.rs`: read the whole source as text
(`fs::read_to_string`, modelled by the `read` function; an unreadable path
gives `none`, the `Err` case propagated by `?`), push one `Row` per line of
the contents, and record the file name. -/
def Document.open (read : String → Option String) (filename : String) :
    Option Document :=
  match read filename with
  | none => none
  | some contents =>
      some ⟨(rustLines contents).map Row.fromLine, some filename⟩

/-- `Document::row` from `src/document.rs`: `self.rows.get(index)`. -/
def Document.row (d : Document) (index : Nat) : Option Row :=
  d.rows.get? index

/-- `Document::is_empty` from `src/document.rs`. -/
def Document.is_empty (d : Document) : Bool :=
  d.rows.isEmpty

/-- `Document::len` from `src/document.rs`. -/
def Document.len (d : Document) : Nat :=
  d.rows.length

/-- The width of line `y`: `if let Some(row) = self.document.row(y)
{ row.len() } else { 0 }`, the expression `Editor::move_cursor` computes
before and after the motion. -/
def Document.rowLen (d : Document) (index : Nat) : Nat :=
  match d.row index with
  | some row => row.len
  | none => 0

/-- `Position` from `src/editor.rs`: zero-based column `x` and line `y` in
document space. -/
structure Position where
  x : Nat
  y : Nat
deriving DecidableEq, Repr

/-- `#[derive(Default)]` for `Position`. -/
def Position.default : Position := ⟨0, 0⟩

/-- The `termion::event::Key` variants the editor consumes. -/
inductive Key where
  | backspace
  | left
  | right
  | up
  | down
  | home
  | endKey
  | pageUp
  | pageDown
  | delete
  | insert
  | f (n : Nat)
  | char (c : Char)
  | alt (c : Char)
  | ctrl (c : Char)
  | null
  | esc
deriving DecidableEq, Repr

/-- `Editor::move_cursor` from `src/editor.rs`, lines 88–151: the motion
algorithm, including the post-step clamp of `x` to the (possibly new)
line width.  `terminal_height` is `self.terminal.size().height`. -/
def move_cursor (d : Document) (terminal_height : Nat) (key : Key)
    (p : Position) : Position :=
  let terminal_size := terminal_height
  let height := d.len
  let width := d.rowLen p.y
  let moved : Nat × Nat :=
    match key with
    | .right =>
        if p.x < width then (p.x + 1, p.y)
        else if p.y < height then (0, p.y + 1)
        else (p.x, p.y)
    | .left =>
        if p.x > 0 then (p.x - 1, p.y)
        else if p.y > 0 then (d.rowLen (p.y - 1), p.y - 1)
        else (p.x, p.y)
    | .down =>
        if p.y < height then (p.x, p.y + 1) else (p.x, p.y)
    | .up => (p.x, p.y - 1)
    | .pageUp =>
        (p.x, if p.y > terminal_size then p.y - terminal_size else 0)
    | .pageDown =>
        (p.x, if p.y + terminal_size < height then p.y + terminal_size
              else height)
    | .home => (0, p.y)
    | .endKey => (width, p.y)
    | _ => (p.x, p.y)
  let x := moved.1
  let y := moved.2
  let width := d.rowLen y
  let x := if x > width then width else x
  ⟨x, y⟩

/-- `Editor::scroll` from `src/editor.rs`, lines 71–87: recompute the
offset so the cursor is visible.  `saturating_add` on `Nat` is `+`, and
`saturating_sub` is `Nat` subtraction. -/
def scroll (width height : Nat) (cursor offset : Position) : Position :=
  let oy :=
    if cursor.y < offset.y then cursor.y
    else if cursor.y ≥ offset.y + height then cursor.y - height + 1
    else offset.y
  let ox :=
    if cursor.x < offset.x then cursor.x
    else if cursor.x ≥ offset.x + width then cursor.x - width + 1
    else offset.x
  ⟨ox, oy⟩

/-- The editor state the key-processing loop mutates: `should_quit`, the
cursor, the offset and the document (`src/editor.rs`, struct `Editor`).
The terminal collaborator is external; its size is passed separately. -/
structure EditorState where
  should_quit : Bool
  cursor_position : Position
  offset : Position
  document : Document
deriving DecidableEq, Repr

/-- `Editor::process_keypress` from `src/editor.rs`, lines 54–70, after the
key has been read: `Ctrl('q')` sets `should_quit`, the eight motion keys
invoke `move_cursor`, anything else is a no-op; `scroll()` runs at the
end in every case. -/
def process_keypress (term_width term_height : Nat) (s : EditorState)
    (key : Key) : EditorState :=
  let s' : EditorState :=
    match key with
    | .ctrl 'q' => { s with should_quit := true }
    | .up | .left | .down | .right | .pageUp | .pageDown | .endKey | .home =>
        { s with cursor_position :=
            move_cursor s.document term_height key s.cursor_position }
    | _ => s
  { s' with offset :=
      scroll term_width term_height s'.cursor_position s'.offset }

/-- `Editor::default` from `src/editor.rs`, lines 25–39, restricted to the
document it constructs: if a path argument is present, open it and fall
back to the default (empty) document on failure (`unwrap_or_default`);
otherwise start from the default document. -/
def editorInitDocument (read : String → Option String)
    (args : List String) : Document :=
  if h : 1 < args.length then
    match Document.open read (args.get ⟨1, h⟩) with
    | some d => d
    | none => Document.default
  else Document.default

/-- Test fixture: the two-line contents used by the spec's examples. -/
def helloWorldText : String := "hello\nworld"

/-- Test fixture: the same contents with a trailing line terminator. -/
def helloWorldNL : String := "hello\nworld\n"

/-- Test fixture: contents with a `\r\n` line terminator. -/
def crlfText : String := "hi\r\nyou"

/-- Test fixture: the first line. -/
def helloStr : String := "hello"

/-- Test fixture: the second line. -/
def worldStr : String := "world"

/-- Test fixture: first line of the `\r\n` contents. -/
def hiStr : String := "hi"

/-- Test fixture: second line of the `\r\n` contents. -/
def youStr : String := "you"

/-- Test fixture: a one-line document whose single row is `"hello"`. -/
def helloDoc : Document := ⟨[Row.fromLine helloStr], none⟩

/-- Test fixture: a two-line document with rows `"hello"` and `"world"`. -/
def helloWorldDoc : Document :=
  ⟨[Row.fromLine helloStr, Row.fromLine worldStr], none⟩

/-- Out-of-range row lookup gives `none`: `rows.get(index)` at
`index = len`. -/
theorem Document.row_len_eq_none (d : Document) : d.row d.len = none := by
  simp [Document.row, Document.len, List.get?_eq_none]

/-- The width of the line one past the last line is zero. -/
theorem Document.rowLen_len_eq_zero (d : Document) : d.rowLen d.len = 0 := by
  simp [Document.rowLen, Document.row_len_eq_none]

/-- Claim C1: for any cursor `(x, y)`, any offset `(ox, oy)` and any
terminal dimensions with `width ≥ 1` and `height ≥ 1` (in particular 80×24),
after `scroll` the cursor lies inside the viewport:
`offset.y ≤ y < offset.y + height` and `offset.x ≤ x < offset.x + width`. -/
theorem scroll_cursor_in_viewport (w h x y ox oy : Nat)
    (hw : 1 ≤ w) (hh : 1 ≤ h) :
    (scroll w h ⟨x, y⟩ ⟨ox, oy⟩).y ≤ y ∧
    y < (scroll w h ⟨x, y⟩ ⟨ox, oy⟩).y + h ∧
    (scroll w h ⟨x, y⟩ ⟨ox, oy⟩).x ≤ x ∧
    x < (scroll w h ⟨x, y⟩ ⟨ox, oy⟩).x + w := by
  simp only [scroll]
  split_ifs <;> simp_all <;> omega

/-- Witness for C1: cursor (100, 30), offset (0, 0), an 80×24 terminal. -/
theorem scroll_cursor_in_viewport_witness :
    (scroll 80 24 ⟨100, 30⟩ ⟨0, 0⟩).y ≤ 30 ∧
    30 < (scroll 80 24 ⟨100, 30⟩ ⟨0, 0⟩).y + 24 ∧
    (scroll 80 24 ⟨100, 30⟩ ⟨0, 0⟩).x ≤ 100 ∧
    100 < (scroll 80 24 ⟨100, 30⟩ ⟨0, 0⟩).x + 80 :=
  scroll_cursor_in_viewport 80 24 100 30 0 0 (by decide) (by decide)

/-- Claim C9: if the cursor is already inside the visible window then
`scroll` changes neither offset coordinate (no jitter); the offset
arithmetic is `Nat` saturating arithmetic and cannot underflow. -/
theorem scroll_stable (w h x y ox oy : Nat)
    (h1 : oy ≤ y) (h2 : y < oy + h) (h3 : ox ≤ x) (h4 : x < ox + w) :
    scroll w h ⟨x, y⟩ ⟨ox, oy⟩ = ⟨ox, oy⟩ := by
  simp only [scroll, Position.mk.injEq]
  split_ifs <;> omega

/-- Witness for C9: cursor (5, 7) inside the window at offset (2, 3) of an
80×24 terminal is left untouched. -/
theorem scroll_stable_witness : scroll 80 24 ⟨5, 7⟩ ⟨2, 3⟩ = ⟨2, 3⟩ :=
  scroll_stable 80 24 5 7 2 3 (by decide) (by decide) (by decide) (by decide)

/-- Claim C5: `PageUp` sets the line to `y - th` saturating at zero
(that is, `max(0, y - th)`), and `PageDown` sets it to
`min(document.len(), y + th)`, where `th` is the terminal height. -/
theorem move_cursor_page (d : Document) (th : Nat) (p : Position) :
    (move_cursor d th Key.pageUp p).y = p.y - th ∧
    (move_cursor d th Key.pageDown p).y = min d.len (p.y + th) := by
  simp only [move_cursor]
  constructor <;> (split_ifs <;> simp_all <;> omega)

/-- Claim C2: for every motion key, if the cursor starts with
`y ≤ document.len()` then after `move_cursor` it still satisfies
`y ≤ document.len()` and `x ≤ width(y)`, where `width(y)` is the length of
the line at `y` or `0` past the last line; the post-step clamp enforces
the `x` bound after every motion. -/
theorem move_cursor_invariant (d : Document) (th : Nat) (key : Key)
    (p : Position)
    (hk : key = Key.up ∨ key = Key.down ∨ key = Key.left ∨
          key = Key.right ∨ key = Key.pageUp ∨ key = Key.pageDown ∨
          key = Key.home ∨ key = Key.endKey)
    (hy : p.y ≤ d.len) :
    (move_cursor d th key p).y ≤ d.len ∧
    (move_cursor d th key p).x ≤ d.rowLen (move_cursor d th key p).y := by
  rcases hk with rfl | rfl | rfl | rfl | rfl | rfl | rfl | rfl <;>
    simp only [move_cursor] <;> split_ifs <;> simp_all <;> omega

/-- Witness for C2: `Down` from (5, 0) in the two-line document lands on
(2, 1), inside the bounds. -/
theorem move_cursor_invariant_witness :
    (move_cursor helloWorldDoc 24 Key.down ⟨5, 0⟩).y ≤ helloWorldDoc.len ∧
    (move_cursor helloWorldDoc 24 Key.down ⟨5, 0⟩).x ≤
      helloWorldDoc.rowLen (move_cursor helloWorldDoc 24 Key.down ⟨5, 0⟩).y :=
  move_cursor_invariant helloWorldDoc 24 Key.down ⟨5, 0⟩
    (Or.inr (Or.inl rfl)) (by decide)

/-- Claim C3 counterexample: in the one-line document `["hello"]`, from
`(x = 5, y = 0)` — the end of the last line — `Right` is not a no-op: it
moves the cursor to `(0, 1)`, one past the last line. -/
theorem move_right_last_line_end_not_noop :
    move_cursor helloDoc 24 Key.right ⟨5, 0⟩ ≠ ⟨5, 0⟩ ∧
    move_cursor helloDoc 24 Key.right ⟨5, 0⟩ = ⟨0, 1⟩ := by
  decide

/-- Claim C3 amended: from `(0, 0)` `Left` leaves the cursor unchanged;
from the end of the last line of a non-empty document `Right` moves to
`(0, document.len())` (one past the last line) rather than staying put;
`Right` is a no-op at `(0, document.len())`. -/
theorem move_cursor_edges_amended (d : Document) (th : Nat)
    (hd : 0 < d.len) :
    move_cursor d th Key.left ⟨0, 0⟩ = ⟨0, 0⟩ ∧
    move_cursor d th Key.right ⟨d.rowLen (d.len - 1), d.len - 1⟩ =
      ⟨0, d.len⟩ ∧
    move_cursor d th Key.right ⟨0, d.len⟩ = ⟨0, d.len⟩ := by
  have hlen : d.len - 1 + 1 = d.len := by omega
  have h0 : d.rowLen (d.len - 1 + 1) = 0 := by
    rw [hlen]; exact d.rowLen_len_eq_zero
  have h1 : d.rowLen d.len = 0 := d.rowLen_len_eq_zero
  refine ⟨?_, ?_, ?_⟩ <;>
    (simp only [move_cursor, Position.mk.injEq]; split_ifs <;> omega)

/-- Witness for C3 amended: the one-line document `["hello"]`. -/
theorem move_cursor_edges_amended_witness :
    move_cursor helloDoc 24 Key.left ⟨0, 0⟩ = ⟨0, 0⟩ ∧
    move_cursor helloDoc 24 Key.right
      ⟨helloDoc.rowLen (helloDoc.len - 1), helloDoc.len - 1⟩ =
      ⟨0, helloDoc.len⟩ ∧
    move_cursor helloDoc 24 Key.right ⟨0, helloDoc.len⟩ =
      ⟨0, helloDoc.len⟩ :=
  move_cursor_edges_amended helloDoc 24 (by decide)

/-- Claim C4: from `(x = width(y), y)` with `y < document.len() - 1`,
`Right` yields `(0, y + 1)`; and from `(x = 0, z)` with `z > 0`, `Left`
yields `(width(z - 1), z - 1)`, the end of the previous line. -/
theorem move_cursor_wrap (d : Document) (th y z : Nat)
    (h1 : y < d.len - 1) (h2 : 0 < z) :
    move_cursor d th Key.right ⟨d.rowLen y, y⟩ = ⟨0, y + 1⟩ ∧
    move_cursor d th Key.left ⟨0, z⟩ = ⟨d.rowLen (z - 1), z - 1⟩ := by
  constructor <;>
    (simp only [move_cursor, Position.mk.injEq]
     split_ifs <;> (try simp_all) <;> omega)

/-- Witness for C4: in the two-line document, `Right` from (5, 0) wraps to
(0, 1) and `Left` from (0, 1) wraps to (5, 0). -/
theorem move_cursor_wrap_witness :
    move_cursor helloWorldDoc 24 Key.right
      ⟨helloWorldDoc.rowLen 0, 0⟩ = ⟨0, 1⟩ ∧
    move_cursor helloWorldDoc 24 Key.left ⟨0, 1⟩ =
      ⟨helloWorldDoc.rowLen 0, 0⟩ :=
  move_cursor_wrap helloWorldDoc 24 0 1 (by decide) (by decide)

/-- Claim C6: a Document opened from contents `"hello\nworld"` has
`len() = 2`, `row(0)` with content `"hello"`, `row(1)` with content
`"world"` and `row(2)` absent; in general `row(index)` is present iff
`index < len()`, and an out-of-range index gives `none`, never an
error. -/
theorem document_open_hello_world (read : String → Option String)
    (path : String) (h : read path = some helloWorldText) :
    (∃ dd, Document.open read path = some dd ∧ dd.len = 2 ∧
      (dd.row 0).map Row.content = some helloStr ∧
      (dd.row 1).map Row.content = some worldStr ∧
      dd.row 2 = none) ∧
    ∀ (dd : Document) (i : Nat), (dd.row i).isSome ↔ i < dd.len := by
  constructor
  · have hlist : rustLines helloWorldText = [helloStr, worldStr] := by
      decide
    refine ⟨⟨(rustLines helloWorldText).map Row.fromLine, some path⟩,
      ?_, ?_, ?_, ?_, ?_⟩ <;>
      simp [Document.open, h, Document.len, Document.row, hlist,
        Row.fromLine, Row.content, List.get?] <;> decide
  · intro dd i
    constructor
    · intro hh
      rcases Option.isSome_iff_exists.mp hh with ⟨a, ha⟩
      have ha' : dd.rows[i]? = some a := by
        simpa [Document.row, List.get?_eq_getElem?] using ha
      exact (List.getElem?_eq_some.mp ha').1
    · intro hh
      have hi : i < dd.rows.length := by simpa [Document.len] using hh
      simp [Document.row, List.get?_eq_getElem?, List.getElem?_eq_getElem hi]

/-- Witness for C6: the constant read function returning
`"hello\nworld"`. -/
theorem document_open_hello_world_witness :
    (∃ dd, Document.open (fun _ => some helloWorldText) helloStr =
        some dd ∧ dd.len = 2 ∧
      (dd.row 0).map Row.content = some helloStr ∧
      (dd.row 1).map Row.content = some worldStr ∧
      dd.row 2 = none) ∧
    ∀ (dd : Document) (i : Nat), (dd.row i).isSome ↔ i < dd.len :=
  document_open_hello_world (fun _ => some helloWorldText) helloStr rfl

/-- Claim C7: when the path argument is present but unreadable, the editor
starts with the default (empty) document — `len() = 0` — and no error is
propagated (`unwrap_or_default`). -/
theorem open_failure_empty_document (read : String → Option String)
    (args : List String) (h : 1 < args.length)
    (hr : read (args.get ⟨1, h⟩) = none) :
    editorInitDocument read args = Document.default ∧
    (editorInitDocument read args).len = 0 := by
  have hdoc : editorInitDocument read args = Document.default := by
    rw [List.get_eq_getElem] at hr
    simp only [editorInitDocument, dif_pos h, Document.open]
    simp [hr]
  exact ⟨hdoc, by simp [hdoc, Document.default, Document.len]⟩

/-- Witness for C7: a two-element argument list and a read function that
fails on every path. -/
theorem open_failure_empty_document_witness :
    editorInitDocument (fun _ => none) [helloStr, worldStr] =
      Document.default ∧
    (editorInitDocument (fun _ => none) [helloStr, worldStr]).len = 0 :=
  open_failure_empty_document (fun _ => none) [helloStr, worldStr]
    (by decide) rfl

/-- Claim C8: starting from a running state (`should_quit = false`), a
processed key sets `should_quit` iff it is `Ctrl('q')`; every key leaves
the document unchanged, and a key that is neither the quit chord nor one
of the eight motion keys also leaves the cursor unchanged and the state
running. -/
theorem quit_only_on_ctrl_q (w h : Nat) (s : EditorState) (key : Key)
    (hs : s.should_quit = false) :
    ((process_keypress w h s key).should_quit = true ↔
      key = Key.ctrl 'q') ∧
    (process_keypress w h s key).document = s.document ∧
    (key ≠ Key.ctrl 'q' →
      key ≠ Key.up → key ≠ Key.down → key ≠ Key.left → key ≠ Key.right →
      key ≠ Key.pageUp → key ≠ Key.pageDown → key ≠ Key.home →
      key ≠ Key.endKey →
      (process_keypress w h s key).cursor_position = s.cursor_position ∧
      (process_keypress w h s key).should_quit = false) := by
  simp only [process_keypress]
  split <;> simp_all

/-- Witness for C8: the running state with the empty default document and
the key `Esc`. -/
theorem quit_only_on_ctrl_q_witness :
    ((process_keypress 80 24
        ⟨false, Position.default, Position.default, Document.default⟩
        Key.esc).should_quit = true ↔ Key.esc = Key.ctrl 'q') ∧
    (process_keypress 80 24
        ⟨false, Position.default, Position.default, Document.default⟩
        Key.esc).document = Document.default ∧
    (Key.esc ≠ Key.ctrl 'q' →
      Key.esc ≠ Key.up → Key.esc ≠ Key.down → Key.esc ≠ Key.left →
      Key.esc ≠ Key.right → Key.esc ≠ Key.pageUp →
      Key.esc ≠ Key.pageDown → Key.esc ≠ Key.home →
      Key.esc ≠ Key.endKey →
      (process_keypress 80 24
          ⟨false, Position.default, Position.default, Document.default⟩
          Key.esc).cursor_position = Position.default ∧
      (process_keypress 80 24
          ⟨false, Position.default, Position.default, Document.default⟩
          Key.esc).should_quit = false) :=
  quit_only_on_ctrl_q 80 24
    ⟨false, Position.default, Position.default, Document.default⟩
    Key.esc rfl

/-- Claim C10: contents ending in a line terminator produce no trailing
empty line (`"hello\nworld\n"` gives two rows), a `\r\n` terminator is
stripped from the line content, and on success `file_name` is set to the
opened path. -/
theorem open_trailing_newline_crlf (read : String → Option String)
    (p q : String) (h1 : read p = some helloWorldNL)
    (h2 : read q = some crlfText) :
    (∃ dd, Document.open read p = some dd ∧ dd.len = 2 ∧
      dd.file_name = some p ∧
      (dd.row 0).map Row.content = some helloStr ∧
      (dd.row 1).map Row.content = some worldStr) ∧
    (∃ dd, Document.open read q = some dd ∧ dd.len = 2 ∧
      dd.file_name = some q ∧
      (dd.row 0).map Row.content = some hiStr ∧
      (dd.row 1).map Row.content = some youStr) := by
  constructor
  · have hlist : rustLines helloWorldNL = [helloStr, worldStr] := by
      decide
    refine ⟨⟨(rustLines helloWorldNL).map Row.fromLine, some p⟩,
      ?_, ?_, ?_, ?_, ?_⟩ <;>
      simp [Document.open, h1, Document.len, Document.row, hlist,
        Row.fromLine, Row.content, List.get?] <;> decide
  · have hlist : rustLines crlfText = [hiStr, youStr] := by
      decide
    refine ⟨⟨(rustLines crlfText).map Row.fromLine, some q⟩,
      ?_, ?_, ?_, ?_, ?_⟩ <;>
      simp [Document.open, h2, Document.len, Document.row, hlist,
        Row.fromLine, Row.content, List.get?] <;> decide

/-- Witness for C10: a read function serving `"hello\nworld\n"` at path
`"hello"` and `"hi\r\nyou"` at path `"world"`. -/
theorem open_trailing_newline_crlf_witness :
    (∃ dd, Document.open
        (fun s => if s = helloStr then some helloWorldNL else some crlfText)
        helloStr = some dd ∧ dd.len = 2 ∧
      dd.file_name = some helloStr ∧
      (dd.row 0).map Row.content = some helloStr ∧
      (dd.row 1).map Row.content = some worldStr) ∧
    (∃ dd, Document.open
        (fun s => if s = helloStr then some helloWorldNL else some crlfText)
        worldStr = some dd ∧ dd.len = 2 ∧
      dd.file_name = some worldStr ∧
      (dd.row 0).map Row.content = some hiStr ∧
      (dd.row 1).map Row.content = some youStr) :=
  open_trailing_newline_crlf
    (fun s => if s = helloStr then some helloWorldNL else some crlfText)
    helloStr worldStr (by decide) (by decide)

end Hecto
